import Mathlib

/-!
Verification of the request-proxying and process-lifecycle subsystem of a
SageMaker inference container (FastAPI gateway in front of a llama.cpp
worker, `app/main.py`).

The Python code is shallowly embedded: each relevant function of
`app/main.py` becomes an executable Lean definition over an explicit model
of JSON values, HTTP headers, upstream outcomes, and the worker process
handle.  Python `dict`s appear as association lists with the lookup
discipline the code actually uses, Python truthiness is modelled by
`pyTruthy`, and exceptions are modelled by explicit result constructors.
-/

namespace SMProxy

/-- JSON values, the shape of payloads accepted by the gateway.  A Python
`dict` produced by `request.json()` is an `obj` with string keys. -/
inductive Json where
  | null : Json
  | bool (b : Bool) : Json
  | num (n : Int) : Json
  | str (s : String) : Json
  | arr (elems : List Json) : Json
  | obj (fields : List (String × Json)) : Json
deriving Repr

/-- Dictionary lookup, `body[k]` / `k in body` on a parsed JSON object. -/
def jsonLookup (fields : List (String × Json)) (k : String) : Option Json :=
  (fields.find? (fun kv => kv.1 = k)).map Prod.snd

/-- Python `body.get(k, default)` on a dict. -/
def dict_get (fields : List (String × Json)) (k : String) (default : Json) : Json :=
  (jsonLookup fields k).getD default

/-- Python truthiness of a JSON value (`bool(x)` / `if not x`): `None`,
`False`, `0`, `""`, `[]`, `{}` are falsy, everything else truthy. -/
def pyTruthy : Json → Bool
  | Json.null => false
  | Json.bool b => b
  | Json.num n => n != 0
  | Json.str s => s != ""
  | Json.arr l => !l.isEmpty
  | Json.obj l => !l.isEmpty

/-- Python `isinstance(x, list)`. -/
def Json.isArr : Json → Bool
  | Json.arr _ => true
  | _ => false

/-- Whether a JSON value is an object (a Python dict). -/
def Json.isObj : Json → Bool
  | Json.obj _ => true
  | _ => false

/-- `_choose_openai_path` (main.py:171-183): route to the chat-completions
path exactly when the key `"messages"` is present in the body dict. -/
def choose_openai_path (fields : List (String × Json)) : String :=
  if (jsonLookup fields "messages").isSome then "/v1/chat/completions"
  else "/v1/completions"

/-- The streaming flag read by both endpoints:
`bool(body.get("stream", False))`. -/
def stream_flag (fields : List (String × Json)) : Bool :=
  pyTruthy (dict_get fields "stream" (Json.bool false))

/-- Outcome of the `/invocations` handler before any upstream transport:
either an `HTTPException` response, an unhandled server error, or a proxied
call to the chosen upstream path with a streaming flag. -/
inductive InvocationsResult where
  | badRequest (detail : String) : InvocationsResult
  | serverError : InvocationsResult
  | proxied (path : String) (stream : Bool) : InvocationsResult
deriving Repr, DecidableEq

/-- `invocations` (main.py:238-262).  The argument is the result of
`await request.json()`: `none` when JSON parsing raised (caught, turned
into a 400).  A parsed body that is not a dict reaches
`body.get("stream", False)` outside the try block, so the `AttributeError`
escapes the handler (`serverError`). -/
def invocations : Option Json → InvocationsResult
  | none => InvocationsResult.badRequest "Invalid JSON body"
  | some (Json.obj fields) =>
      InvocationsResult.proxied (choose_openai_path fields) (stream_flag fields)
  | some _ => InvocationsResult.serverError

/-- HTTP methods accepted by the `/v1/{full_path}` route. -/
inductive Method where
  | GET : Method
  | POST : Method
  | PUT : Method
  | PATCH : Method
deriving Repr, DecidableEq

/-- Outcome of the `openai_passthrough` handler before upstream transport. -/
inductive PassResult where
  | badRequest (detail : String) : PassResult
  | proxied (path : String) (stream : Bool) : PassResult
deriving Repr, DecidableEq

/-- `openai_passthrough` (main.py:265-317).  `body?` is the result of
`await request.json()` for mutating methods (`none` = parse failure);
`accept` is the `accept` request header (absent headers read as `""`).
A parsed body that is not a dict raises `AttributeError` at
`body.get("stream", False)` inside the try block, which the
`except Exception` arm treats exactly like a JSON parse failure. -/
def openai_passthrough (method : Method) (full_path : String)
    (body? : Option Json) (accept : String) : PassResult :=
  match method with
  | Method.GET =>
      PassResult.proxied ("/v1/" ++ full_path) (accept.startsWith "text/event-stream")
  | _ =>
      match body? with
      | some (Json.obj fields) =>
          if full_path = "chat/completions" then
            match jsonLookup fields "messages" with
            | none => PassResult.badRequest "Missing required field: messages"
            | some msgs =>
                if pyTruthy msgs = false ∨ msgs.isArr = false then
                  PassResult.badRequest "Invalid messages field"
                else
                  PassResult.proxied ("/v1/" ++ full_path) (stream_flag fields)
          else if full_path = "completions" then
            match jsonLookup fields "prompt" with
            | none => PassResult.badRequest "Missing required field: prompt"
            | some _ => PassResult.proxied ("/v1/" ++ full_path) (stream_flag fields)
          else
            PassResult.proxied ("/v1/" ++ full_path) (stream_flag fields)
      | _ =>
          if accept.startsWith "text/event-stream" then
            PassResult.proxied ("/v1/" ++ full_path) true
          else
            PassResult.badRequest "Invalid JSON body"

/-- Whether a passthrough outcome is a 400 returned without contacting
upstream. -/
def PassResult.isBadRequest : PassResult → Bool
  | PassResult.badRequest _ => true
  | PassResult.proxied _ _ => false

/-! ### Proxy: header relay and target address (`_proxy_request`, main.py:186-235) -/

/-- `dict.pop(k, None)` on a header mapping: remove the entry for key `k`.
Starlette lowercases header names, so keys are already lower-case. -/
def popHeader (hs : List (String × String)) (k : String) : List (String × String) :=
  hs.filter (fun kv => kv.1 ≠ k)

/-- main.py:199-201: `headers = dict(request.headers);
headers.pop("host", None); headers.pop("connection", None)`. -/
def outbound_headers (inbound : List (String × String)) : List (String × String) :=
  popHeader (popHeader inbound "host") "connection"

/-- main.py:198: the upstream URL
`f"http://{UPSTREAM_HOST}:{UPSTREAM_PORT}{path}"` (braces denote Python
interpolation). -/
def upstream_url (host : String) (port : Nat) (path : String) : String :=
  "http://" ++ host ++ ":" ++ toString port ++ path

/-! ### Proxy: streaming mode (main.py:205-219) -/

/-- What upstream produces on a streamed connection: its status, its
content type, and the byte chunks of `response.aiter_bytes()`. -/
structure UpstreamStream where
  status : Nat
  content_type : String
  chunks : List (List Nat)
deriving Repr, DecidableEq

/-- The `stream_response` generator (main.py:209-215): iterate over
upstream's chunks and yield each one as it arrives. -/
def stream_response : List (List Nat) → List (List Nat)
  | [] => []
  | c :: rest => c :: stream_response rest

/-- The caller-visible streamed reply: chunk sequence, declared status
code, declared media type. -/
structure StreamedReply where
  chunks : List (List Nat)
  status_code : Nat
  media_type : String
deriving Repr, DecidableEq

/-- main.py:217-219: `StreamingResponse(stream_response(), status_code=200,
media_type="text/event-stream")` — status and media type are fixed at
construction, before any chunk (or upstream status) is seen. -/
def proxy_streaming (u : UpstreamStream) : StreamedReply :=
  { chunks := stream_response u.chunks
    status_code := 200
    media_type := "text/event-stream" }

/-! ### Proxy: buffered (non-streaming) mode (main.py:220-235) -/

/-- Transport-layer failures httpx can raise while talking to upstream. -/
inductive TransportError where
  | connectionRefused : TransportError
  | connectTimeout : TransportError
  | readTimeout : TransportError
  | transportFailure : TransportError
deriving Repr, DecidableEq

/-- A response successfully received from upstream. -/
structure UpstreamResponse where
  status : Nat
  headers : List (String × String)
  body : List Nat
deriving Repr, DecidableEq

/-- httpx `r.headers.get(k)`: case-insensitively look a header up; keys are
modelled already lower-cased. -/
def headerGet (hs : List (String × String)) (k : String) : Option String :=
  (hs.find? (fun kv => kv.1 = k)).map Prod.snd

/-- The HTTP response the gateway hands back to the caller in buffered
mode. -/
structure HttpResponse where
  status : Nat
  headers : List (String × String)
  body : List Nat
deriving Repr, DecidableEq

/-- main.py:226-232: build `safe_headers` — keep `content-type` and then
`x-request-id`, each only when present with a truthy (non-empty) value
(`ct = r.headers.get("content-type"); if ct: ...`). -/
def safe_headers (uh : List (String × String)) : List (String × String) :=
  (match headerGet uh "content-type" with
   | some ct => if ct != "" then [("content-type", ct)] else []
   | none => []) ++
  (match headerGet uh "x-request-id" with
   | some rid => if rid != "" then [("x-request-id", rid)] else []
   | none => [])

/-- main.py:221-235, buffered branch of `_proxy_request`: one upstream
call; on success relay status, body and `safe_headers`; a transport error
raised by httpx is not caught anywhere in `_proxy_request` and propagates
out of the handler. -/
def proxy_buffered (u : Except TransportError UpstreamResponse) :
    Except TransportError HttpResponse :=
  match u with
  | Except.error e => Except.error e
  | Except.ok r =>
      Except.ok { status := r.status, headers := safe_headers r.headers, body := r.body }

/-- The ASGI framework boundary around route handlers: Starlette's server
error middleware turns an exception that escapes a handler into a plain
500 "Internal Server Error" response; the server process itself keeps
running.  (Framework semantics, not repository code.) -/
def gateway_error_boundary (r : Except TransportError HttpResponse) : HttpResponse :=
  match r with
  | Except.ok resp => resp
  | Except.error _ =>
      { status := 500
        headers := [("content-type", "text/plain; charset=utf-8")]
        body := [] }

/-- A buffered (non-streaming) request as the caller observes it.  The
upstream transport is an oracle giving the outcome of each successive
upstream attempt; the code performs exactly one `client.request` call
(main.py:223), so only attempt `0` is ever consumed. -/
def gateway_nonstream_handle
    (oracle : Nat → Except TransportError UpstreamResponse) : HttpResponse :=
  gateway_error_boundary (proxy_buffered (oracle 0))

/-- The status code the caller observes for a proxied request.  In
streaming mode the `StreamingResponse` is constructed with
`status_code=200` (main.py:218) and the response start is sent before the
generator first touches upstream, so the observed status is 200 whatever
the transport does; in buffered mode it is the boundary-wrapped result. -/
def caller_observed_status (stream : Bool)
    (u : Except TransportError UpstreamResponse) : Nat :=
  if stream then 200
  else (gateway_error_boundary (proxy_buffered u)).status

/-! ### Worker supervisor: spawn (`spawn_llama_server`, main.py:93-157) -/

/-- The handle to a spawned worker process: its pid and liveness
(`poll() is None` ⟺ `alive = true`). -/
structure ProcHandle where
  pid : Nat
  alive : Bool
deriving Repr, DecidableEq

/-- Python truthiness of `llama_proc and llama_proc.poll() is None`
(a `Popen` object is always truthy). -/
def handleAlive : Option ProcHandle → Bool
  | some h => h.alive
  | none => false

/-- Environment inputs of `spawn_llama_server`: the `shutil.which`
result, the already-tokenised `LLAMA_CPP_ARGS`, and the upstream
host/port configuration.  `upstream_host` is carried to show the spawn
command never depends on it. -/
structure SpawnEnv where
  llama_server_bin : Option String
  llama_cpp_args : List String
  upstream_port : Nat
  upstream_host : String
deriving Repr, DecidableEq

/-- What one call to `spawn_llama_server` did. -/
inductive SpawnOutcome where
  | noop : SpawnOutcome
  | spawned (cmd : List String) : SpawnOutcome
  | error (msg : String) : SpawnOutcome
deriving Repr, DecidableEq

/-- `spawn_llama_server` (main.py:103-145) as a state transformer on the
global `llama_proc` handle.  Checks, in source order: live-handle no-op
(main.py:104-105); binary discovery (main.py:107-109); `model_path`
falsy check (main.py:124-125, `None` or `""`); then
`cmd = base_args + model_args + extra_args` (main.py:134) and `Popen`.
`newPid` stands for the pid of the freshly spawned process, which is
alive (`poll()` is `None`) at creation. -/
def spawn_llama_server (st : Option ProcHandle) (env : SpawnEnv)
    (model_path : Option String) (newPid : Nat) :
    Option ProcHandle × SpawnOutcome :=
  if handleAlive st then (st, SpawnOutcome.noop)
  else
    match env.llama_server_bin with
    | none => (st, SpawnOutcome.error "llama-server binary not found in PATH")
    | some bin =>
        match model_path with
        | none => (st, SpawnOutcome.error "No model path provided")
        | some mp =>
            if mp = "" then (st, SpawnOutcome.error "No model path provided")
            else
              (some { pid := newPid, alive := true },
               SpawnOutcome.spawned
                 ([bin, "--host", "127.0.0.1", "--port", toString env.upstream_port,
                   "--model", mp] ++ env.llama_cpp_args))

/-- Number of processes a spawn-call outcome created. -/
def spawnCount : SpawnOutcome → Nat
  | SpawnOutcome.spawned _ => 1
  | SpawnOutcome.noop => 0
  | SpawnOutcome.error _ => 0

/-- One full buffered request cycle threaded with the worker handle: the
route handlers and `_proxy_request` never read or write the global
`llama_proc`, so the handle passes through request handling unchanged
whatever the transport oracle does. -/
def gateway_request_cycle (st : Option ProcHandle)
    (oracle : Nat → Except TransportError UpstreamResponse) :
    HttpResponse × Option ProcHandle :=
  (gateway_nonstream_handle oracle, st)

/-! ### Worker supervisor: shutdown (`lifespan`, main.py:74-87) -/

/-- Observable signalling actions of the shutdown sequence. -/
inductive ShutAction where
  | termChild (pid : Nat) : ShutAction
  | termParent : ShutAction
  | waitParent (timeoutSecs : Nat) : ShutAction
  | killParent : ShutAction
deriving Repr, DecidableEq

/-- How the operating system behaves during one shutdown: which psutil
calls fail (raise), the descendant pids enumerated, and whether the
bounded wait times out. -/
structure ShutdownWorld where
  lookupFails : Bool
  enumFails : Bool
  children : List Nat
  failingChildren : List Nat
  parentTermFails : Bool
  waitTimesOut : Bool
  waitOtherFails : Bool
  killFails : Bool
deriving Repr, DecidableEq

/-- The `for child in parent.children(recursive=True): child.terminate()`
loop (main.py:79-80): actions performed so far, plus the exception (if
any) that aborted the loop. -/
def termChildren (failing : List Nat) : List Nat → List ShutAction × Option String
  | [] => ([], none)
  | c :: rest =>
      if failing.contains c then ([], some "child terminate failed")
      else
        match termChildren failing rest with
        | (tr, e) => (ShutAction.termChild c :: tr, e)

/-- Body of the outer `try` of the shutdown block (main.py:78-85): look
the parent process up, terminate each descendant, terminate the parent,
wait up to 10 seconds, and on `TimeoutExpired` (the only exception the
inner `except` arm catches) kill the parent.  Returns the action trace
and the exception (if any) escaping the `try` body. -/
def shutdown_body (w : ShutdownWorld) : List ShutAction × Option String :=
  if w.lookupFails then ([], some "NoSuchProcess")
  else if w.enumFails then ([], some "children enumeration failed")
  else
    match termChildren w.failingChildren w.children with
    | (tr, some e) => (tr, some e)
    | (tr, none) =>
        if w.parentTermFails then (tr, some "parent terminate failed")
        else
          if w.waitTimesOut then
            if w.killFails then
              (tr ++ [ShutAction.termParent, ShutAction.waitParent 10],
               some "kill failed")
            else
              (tr ++ [ShutAction.termParent, ShutAction.waitParent 10,
                      ShutAction.killParent], none)
          else if w.waitOtherFails then
            (tr ++ [ShutAction.termParent, ShutAction.waitParent 10],
             some "wait failed")
          else
            (tr ++ [ShutAction.termParent, ShutAction.waitParent 10], none)

/-- The shutdown half of `lifespan` (main.py:74-87): skipped entirely
unless a handle exists and `poll()` is `None`; the whole signalling
sequence sits in a `try` whose `except Exception: pass` swallows any
exception.  Result: the trace of performed actions and the exception (if
any) propagating out of shutdown. -/
def lifespan_shutdown (st : Option ProcHandle) (w : ShutdownWorld) :
    List ShutAction × Option String :=
  if handleAlive st then ((shutdown_body w).1, none)
  else ([], none)

/-- The failure-free environment condition for a shutdown world: no
psutil call raises (the bounded wait may still time out). -/
def ShutdownWorld.noFailures (w : ShutdownWorld) : Prop :=
  w.lookupFails = false ∧ w.enumFails = false ∧ w.failingChildren = [] ∧
  w.parentTermFails = false ∧ w.waitOtherFails = false ∧ w.killFails = false

/-! ## Helper lemmas -/

/-- The `stream_response` generator forwards its input chunk list
unchanged. -/
theorem stream_response_id (l : List (List Nat)) : stream_response l = l := by
  induction l with
  | nil => rfl
  | cons c rest ih => simp [stream_response, ih]

/-- With no failing descendants, the terminate loop signals every child in
enumeration order and raises nothing. -/
theorem termChildren_no_failures (l : List Nat) :
    termChildren [] l = (l.map ShutAction.termChild, none) := by
  induction l with
  | nil => rfl
  | cons c rest ih => simp [termChildren, ih]

/-- The code's messages check (`not body["messages"] or
not isinstance(body["messages"], list)`) is equivalent to: not a list, or
the empty list. -/
theorem messages_invalid_iff (m : Json) :
    (pyTruthy m = false ∨ m.isArr = false) ↔ (m.isArr = false ∨ m = Json.arr []) := by
  cases m with
  | arr l => cases l <;> simp [pyTruthy, Json.isArr]
  | null => simp [pyTruthy, Json.isArr]
  | bool b => simp [pyTruthy, Json.isArr]
  | num n => simp [pyTruthy, Json.isArr]
  | str s => simp [pyTruthy, Json.isArr]
  | obj l => simp [pyTruthy, Json.isArr]

/-- The passthrough handler treats the three mutating methods
identically. -/
theorem openai_passthrough_method_agnostic (fp : String) (body? : Option Json)
    (accept : String) :
    openai_passthrough Method.PUT fp body? accept =
      openai_passthrough Method.POST fp body? accept ∧
    openai_passthrough Method.PATCH fp body? accept =
      openai_passthrough Method.POST fp body? accept :=
  ⟨rfl, rfl⟩

/-! ## Claim theorems -/

/-- Claim C1: the platform-invocation endpoint proxies a JSON body holding
a non-empty list under the key `messages` to `/v1/chat/completions`, and
proxies every body lacking a `messages` key (the empty object included) to
`/v1/completions`. -/
theorem invocations_routes_by_messages_field (fields : List (String × Json)) :
    (∀ msgs : List Json,
       jsonLookup fields "messages" = some (Json.arr msgs) → msgs ≠ [] →
       invocations (some (Json.obj fields)) =
         InvocationsResult.proxied "/v1/chat/completions" (stream_flag fields)) ∧
    (jsonLookup fields "messages" = none →
       invocations (some (Json.obj fields)) =
         InvocationsResult.proxied "/v1/completions" (stream_flag fields)) := by
  constructor
  · intro msgs hmsg _
    simp [invocations, choose_openai_path, hmsg]
  · intro hnone
    simp [invocations, choose_openai_path, hnone]

/-- Witness for C1: a one-turn conversation routes to chat completions and
the empty object routes to plain completions. -/
theorem invocations_routes_by_messages_field_witness :
    invocations (some (Json.obj
        [("messages", Json.arr [Json.obj
            [("role", Json.str "user"), ("content", Json.str "hi")]])])) =
      InvocationsResult.proxied "/v1/chat/completions" false ∧
    invocations (some (Json.obj [])) =
      InvocationsResult.proxied "/v1/completions" false := by
  constructor
  · exact (invocations_routes_by_messages_field _).1 _ rfl (List.cons_ne_nil _ _)
  · exact (invocations_routes_by_messages_field _).2 rfl

/-- Claim C2: the outbound header mapping is the inbound mapping with
exactly the `host` and `connection` entries removed; every other entry
survives unmodified. -/
theorem outbound_headers_drop_hop_by_hop (inbound : List (String × String)) :
    (∀ v : String, ("host", v) ∉ outbound_headers inbound) ∧
    (∀ v : String, ("connection", v) ∉ outbound_headers inbound) ∧
    (∀ k v : String, k ≠ "host" → k ≠ "connection" →
       ((k, v) ∈ outbound_headers inbound ↔ (k, v) ∈ inbound)) := by
  refine ⟨?_, ?_, ?_⟩
  · intro v hv
    simp [outbound_headers, popHeader, List.mem_filter] at hv
  · intro v hv
    simp [outbound_headers, popHeader, List.mem_filter] at hv
  · intro k v hk hc
    simp [outbound_headers, popHeader, List.mem_filter, hk, hc]

/-- Witness for C2: an `authorization` header outlives the relay next to
dropped `host` and `connection` headers. -/
theorem outbound_headers_drop_hop_by_hop_witness :
    ("authorization", "Bearer tok") ∈ outbound_headers
      [("host", "sm.aws"), ("authorization", "Bearer tok"), ("connection", "keep-alive")] :=
  ((outbound_headers_drop_hop_by_hop _).2.2 "authorization" "Bearer tok"
      (by decide) (by decide)).mpr (by simp)

/-- Claim C3: in streaming mode the caller sees exactly upstream's chunk
sequence, and the reply is declared with status 200 and media type
`text/event-stream` whatever upstream's status and content type were. -/
theorem proxy_streaming_preserves_chunks (u : UpstreamStream) :
    proxy_streaming u =
      { chunks := u.chunks, status_code := 200, media_type := "text/event-stream" } := by
  simp [proxy_streaming, stream_response_id]

/-- Claim C4: starting the worker while a live handle exists is an
immediate no-op with the handle unchanged, so two successive start calls
with the first instance still alive spawn exactly one process. -/
theorem spawn_at_most_one_worker (env : SpawnEnv) (mp : Option String) :
    (∀ (st : Option ProcHandle) (h : ProcHandle) (pid : Nat),
       st = some h → h.alive = true →
       spawn_llama_server st env mp pid = (st, SpawnOutcome.noop)) ∧
    (∀ (pid₁ pid₂ : Nat) (h₁ : ProcHandle) (out₁ : SpawnOutcome),
       spawn_llama_server none env mp pid₁ = (some h₁, out₁) → h₁.alive = true →
       spawn_llama_server (some h₁) env mp pid₂ = (some h₁, SpawnOutcome.noop) ∧
       spawnCount out₁ + spawnCount SpawnOutcome.noop = 1) := by
  constructor
  · intro st h pid hst halive
    subst hst
    simp [spawn_llama_server, handleAlive, halive]
  · intro pid₁ pid₂ h₁ out₁ hfirst halive
    refine ⟨by simp [spawn_llama_server, handleAlive, halive], ?_⟩
    obtain ⟨b, args, port, host⟩ := env
    cases b with
    | none => simp [spawn_llama_server, handleAlive] at hfirst
    | some bin =>
        cases mp with
        | none => simp [spawn_llama_server, handleAlive] at hfirst
        | some s =>
            by_cases hs : s = ""
            · simp [spawn_llama_server, handleAlive, hs] at hfirst
            · simp [spawn_llama_server, handleAlive, hs] at hfirst
              rw [← hfirst.2]
              rfl

/-- Witness for C4: a second start call against a live pid-7 handle leaves
the handle in place and spawns nothing. -/
theorem spawn_at_most_one_worker_witness :
    spawn_llama_server (some { pid := 7, alive := true })
      { llama_server_bin := some "llama-server", llama_cpp_args := [],
        upstream_port := 8081, upstream_host := "127.0.0.1" }
      (some "/models/m.gguf") 8 =
    (some { pid := 7, alive := true }, SpawnOutcome.noop) :=
  (spawn_at_most_one_worker _ _).1 _ _ 8 rfl rfl

/-- Claim C5: worker shutdown never raises in any state or world; with no
handle or a dead process it does nothing; on the failure-free path it
signals every descendant first, then the worker, waits the bounded 10
seconds, and force-kills exactly when the wait timed out. -/
theorem lifespan_shutdown_safe (st : Option ProcHandle) (w : ShutdownWorld) :
    (lifespan_shutdown st w).2 = none ∧
    (handleAlive st = false → lifespan_shutdown st w = ([], none)) ∧
    (∀ h : ProcHandle, st = some h → h.alive = true → w.noFailures →
       (lifespan_shutdown st w).1 =
         w.children.map ShutAction.termChild ++
           [ShutAction.termParent, ShutAction.waitParent 10] ++
           (if w.waitTimesOut then [ShutAction.killParent] else [])) := by
  refine ⟨?_, ?_, ?_⟩
  · cases hst : handleAlive st <;> simp [lifespan_shutdown, hst]
  · intro hdead
    simp [lifespan_shutdown, hdead]
  · intro h hst halive hnf
    obtain ⟨n₁, n₂, n₃, n₄, n₅, n₆⟩ := hnf
    subst hst
    simp only [lifespan_shutdown, handleAlive, halive, if_true]
    rw [shutdown_body, if_neg (by simp [n₁]), if_neg (by simp [n₂]), n₃,
      termChildren_no_failures]
    simp only [n₄, Bool.false_eq_true, if_false]
    cases hw : w.waitTimesOut
    · simp [n₅, List.append_assoc]
    · simp [n₆, List.append_assoc]

/-- The passthrough 400-condition for the POST method, characterised
exactly: a 400 is returned without any upstream call iff the body is a
JSON object failing the sub-path's shape check, or the body is not a JSON
object (unparseable or non-object) while the client does not ask for an
event-stream. -/
theorem openai_passthrough_post_badrequest_iff (fp : String) (body? : Option Json)
    (accept : String) :
    (openai_passthrough Method.POST fp body? accept).isBadRequest = true ↔
      ((∃ fields, body? = some (Json.obj fields) ∧ fp = "chat/completions" ∧
          (jsonLookup fields "messages" = none ∨
           ∃ msgs, jsonLookup fields "messages" = some msgs ∧
             (msgs.isArr = false ∨ msgs = Json.arr []))) ∨
       (∃ fields, body? = some (Json.obj fields) ∧ fp = "completions" ∧
          jsonLookup fields "prompt" = none) ∨
       ((∀ j : Json, body? = some j → j.isObj = false) ∧
          accept.startsWith "text/event-stream" = false)) := by
  unfold openai_passthrough
  cases body? with
  | none =>
      cases hacc : accept.startsWith "text/event-stream" <;>
        simp [hacc, PassResult.isBadRequest]
  | some j =>
      cases j with
      | null =>
          cases hacc : accept.startsWith "text/event-stream" <;>
            simp [hacc, PassResult.isBadRequest, Json.isObj]
      | bool b =>
          cases hacc : accept.startsWith "text/event-stream" <;>
            simp [hacc, PassResult.isBadRequest, Json.isObj]
      | num n =>
          cases hacc : accept.startsWith "text/event-stream" <;>
            simp [hacc, PassResult.isBadRequest, Json.isObj]
      | str s =>
          cases hacc : accept.startsWith "text/event-stream" <;>
            simp [hacc, PassResult.isBadRequest, Json.isObj]
      | arr l =>
          cases hacc : accept.startsWith "text/event-stream" <;>
            simp [hacc, PassResult.isBadRequest, Json.isObj]
      | obj fields =>
          by_cases hfp : fp = "chat/completions"
          · subst hfp
            cases hmsg : jsonLookup fields "messages" with
            | none =>
                simp [hmsg, PassResult.isBadRequest, Json.isObj]
            | some msgs =>
                by_cases hv : pyTruthy msgs = false ∨ msgs.isArr = false
                · have hv2 := (messages_invalid_iff msgs).mp hv
                  simp [hmsg, hv, hv2, PassResult.isBadRequest,
                    Json.isObj]
                · have hv2 : ¬(msgs.isArr = false ∨ msgs = Json.arr []) :=
                    fun hc => hv ((messages_invalid_iff msgs).mpr hc)
                  simp [hmsg, hv, PassResult.isBadRequest,
                    Json.isObj, hv2]
          · by_cases hfp2 : fp = "completions"
            · subst hfp2
              cases hprompt : jsonLookup fields "prompt" with
              | none =>
                  simp [hprompt, PassResult.isBadRequest, Json.isObj]
              | some p =>
                  simp [hprompt, PassResult.isBadRequest, Json.isObj]
            · simp [hfp, hfp2, PassResult.isBadRequest, Json.isObj]

/-- Witness for C5: live pid-5 worker, descendants 1 and 2, wait times
out — children signalled first, then the parent, then the bounded wait,
then the kill; no exception escapes. -/
theorem lifespan_shutdown_safe_witness :
    (lifespan_shutdown (some { pid := 5, alive := true })
       { lookupFails := false, enumFails := false, children := [1, 2],
         failingChildren := [], parentTermFails := false, waitTimesOut := true,
         waitOtherFails := false, killFails := false }).1 =
      [ShutAction.termChild 1, ShutAction.termChild 2, ShutAction.termParent,
       ShutAction.waitParent 10, ShutAction.killParent] := by
  have h := (lifespan_shutdown_safe (some { pid := 5, alive := true })
      { lookupFails := false, enumFails := false, children := [1, 2],
        failingChildren := [], parentTermFails := false, waitTimesOut := true,
        waitOtherFails := false, killFails := false }).2.2
      { pid := 5, alive := true } rfl rfl ⟨rfl, rfl, rfl, rfl, rfl, rfl⟩
  simpa using h

/-- Counterexample to C6 as stated: `POST /v1/models` with the body `42`
— valid JSON, but not an object — and `Accept: application/json`.  None
of the claim's three 400-conditions holds (the body parses as JSON, and
the sub-path is neither `chat/completions` nor `completions`), yet the
handler returns 400 "Invalid JSON body" without contacting upstream. -/
theorem openai_passthrough_nonobject_counterexample :
    openai_passthrough Method.POST "models" (some (Json.num 42)) "application/json" =
      PassResult.badRequest "Invalid JSON body" ∧
    ("models" ≠ "chat/completions" ∧ "models" ≠ "completions") ∧
    "application/json".startsWith "text/event-stream" = false :=
  ⟨rfl, ⟨by decide, by decide⟩, by decide⟩

/-- Claim C6 (amended): for mutating methods the passthrough returns 400
without contacting upstream exactly when the body is a JSON object that
fails the sub-path's shape check (chat: `messages` missing, empty, or not
a list; completions: `prompt` missing), or the body does not parse as a
JSON object (unparseable, or valid JSON that is not an object) while the
`Accept` header does not announce an event-stream. -/
theorem openai_passthrough_badrequest_iff (m : Method) (fp : String)
    (body? : Option Json) (accept : String) (hm : m ≠ Method.GET) :
    (openai_passthrough m fp body? accept).isBadRequest = true ↔
      ((∃ fields, body? = some (Json.obj fields) ∧ fp = "chat/completions" ∧
          (jsonLookup fields "messages" = none ∨
           ∃ msgs, jsonLookup fields "messages" = some msgs ∧
             (msgs.isArr = false ∨ msgs = Json.arr []))) ∨
       (∃ fields, body? = some (Json.obj fields) ∧ fp = "completions" ∧
          jsonLookup fields "prompt" = none) ∨
       ((∀ j : Json, body? = some j → j.isObj = false) ∧
          accept.startsWith "text/event-stream" = false)) := by
  cases m with
  | GET => exact absurd rfl hm
  | POST => exact openai_passthrough_post_badrequest_iff fp body? accept
  | PUT =>
      rw [(openai_passthrough_method_agnostic fp body? accept).1]
      exact openai_passthrough_post_badrequest_iff fp body? accept
  | PATCH =>
      rw [(openai_passthrough_method_agnostic fp body? accept).2]
      exact openai_passthrough_post_badrequest_iff fp body? accept

/-- Witness for C6 (amended): `POST /v1/completions` with body `{}` (no
`prompt`) is rejected with a 400 before any upstream call. -/
theorem openai_passthrough_badrequest_iff_witness :
    (openai_passthrough Method.POST "completions" (some (Json.obj [])) "").isBadRequest
      = true :=
  (openai_passthrough_badrequest_iff Method.POST "completions" (some (Json.obj [])) ""
      (by decide)).mpr (Or.inr (Or.inl ⟨[], rfl, rfl, rfl⟩))

/-- Counterexample to C7 as stated: a streaming request whose upstream
connection is refused.  The `StreamingResponse` is constructed with
`status_code=200` before the generator ever touches upstream, so the
caller observes status 200 — not a 5xx; the failure surfaces only as
stream truncation. -/
theorem streaming_transport_error_counterexample :
    caller_observed_status true (Except.error TransportError.connectionRefused) = 200 ∧
    ¬ (500 ≤ caller_observed_status true (Except.error TransportError.connectionRefused) ∧
       caller_observed_status true (Except.error TransportError.connectionRefused) < 600) := by
  decide

/-- Claim C7 (amended): for every buffered (non-streaming) proxied request
whose upstream connection is refused, times out, or fails at the
transport layer, the caller receives a 5xx (the 500 produced at the
framework boundary); the result depends only on the single upstream
attempt the code makes (no retry), and the worker handle passes through
the request cycle unchanged.  (In streaming mode the status is fixed at
200 before upstream contact, so such failures surface as truncation
instead.) -/
theorem buffered_transport_error_yields_500
    (oracle oracle' : Nat → Except TransportError UpstreamResponse)
    (e : TransportError) (h0 : oracle 0 = Except.error e) :
    (gateway_nonstream_handle oracle).status = 500 ∧
    (500 ≤ (gateway_nonstream_handle oracle).status ∧
       (gateway_nonstream_handle oracle).status < 600) ∧
    (oracle 0 = oracle' 0 →
       gateway_nonstream_handle oracle = gateway_nonstream_handle oracle') ∧
    (∀ st : Option ProcHandle,
       gateway_request_cycle st oracle = (gateway_nonstream_handle oracle, st)) := by
  refine ⟨?_, ?_, ?_, ?_⟩
  · simp [gateway_nonstream_handle, h0, proxy_buffered, gateway_error_boundary]
  · simp [gateway_nonstream_handle, h0, proxy_buffered, gateway_error_boundary]
  · intro heq
    simp [gateway_nonstream_handle, heq]
  · intro st
    rfl

/-- Witness for C7 (amended): with every attempt refused, the buffered
caller gets exactly status 500. -/
theorem buffered_transport_error_yields_500_witness :
    (gateway_nonstream_handle
        (fun _ => Except.error TransportError.connectionRefused)).status = 500 :=
  (buffered_transport_error_yields_500
      (fun _ => Except.error TransportError.connectionRefused)
      (fun _ => Except.error TransportError.connectionRefused)
      TransportError.connectionRefused rfl).1

/-- Counterexample to C8 as stated: upstream answers with a `content-type`
header whose value is the empty string.  Upstream did send the header
(`headerGet` finds it), but Python's truthiness test `if ct:` drops it,
so the relayed header set is empty rather than the claimed allow-list
subset containing it. -/
theorem buffered_relay_empty_content_type_counterexample :
    headerGet [("content-type", "")] "content-type" = some "" ∧
    proxy_buffered (Except.ok
        { status := 200, headers := [("content-type", "")], body := [] }) =
      Except.ok { status := 200, headers := [], body := [] } :=
  ⟨rfl, rfl⟩

/-- Claim C8 (amended): in buffered mode the relayed response carries
upstream's status code and body bytes unchanged, and its header set is
exactly the allow-list subset of upstream's headers with non-empty
values: `content-type` if upstream sent it non-empty, `x-request-id` if
upstream sent it non-empty, and nothing else. -/
theorem buffered_relay_allowlist (r : UpstreamResponse) (resp : HttpResponse)
    (hp : proxy_buffered (Except.ok r) = Except.ok resp) :
    resp.status = r.status ∧ resp.body = r.body ∧
    (∀ ct : String, headerGet r.headers "content-type" = some ct → ct ≠ "" →
       ("content-type", ct) ∈ resp.headers) ∧
    (∀ rid : String, headerGet r.headers "x-request-id" = some rid → rid ≠ "" →
       ("x-request-id", rid) ∈ resp.headers) ∧
    (∀ k v : String, (k, v) ∈ resp.headers →
       (k = "content-type" ∨ k = "x-request-id") ∧
       headerGet r.headers k = some v ∧ v ≠ "") := by
  have hresp : resp = { status := r.status, headers := safe_headers r.headers, body := r.body } := by
    simpa [proxy_buffered] using hp.symm
  subst hresp
  refine ⟨rfl, rfl, ?_, ?_, ?_⟩
  · intro ct hct hne
    simp [safe_headers, hct, hne]
  · intro rid hrid hne
    cases hct : headerGet r.headers "content-type" with
    | none => simp [safe_headers, hct, hrid, hne]
    | some ct =>
        by_cases hcte : ct = ""
        · simp [safe_headers, hct, hcte, hrid, hne]
        · simp [safe_headers, hct, hcte, hrid, hne]
  · intro k v hkv
    simp only [safe_headers, List.mem_append] at hkv
    rcases hkv with hkv | hkv
    · cases hct : headerGet r.headers "content-type" with
      | none => rw [hct] at hkv; simp at hkv
      | some ct =>
          rw [hct] at hkv
          by_cases hcte : ct = ""
          · simp [hcte] at hkv
          · simp [hcte] at hkv
            obtain ⟨hk, hv⟩ := hkv
            subst hk
            subst hv
            exact ⟨Or.inl rfl, hct, hcte⟩
    · cases hrid : headerGet r.headers "x-request-id" with
      | none => rw [hrid] at hkv; simp at hkv
      | some rid =>
          rw [hrid] at hkv
          by_cases hride : rid = ""
          · simp [hride] at hkv
          · simp [hride] at hkv
            obtain ⟨hk, hv⟩ := hkv
            subst hk
            subst hv
            exact ⟨Or.inr rfl, hrid, hride⟩

/-- Witness for C8 (amended): a JSON upstream reply with an extra
transport header relays its `content-type` (and nothing about the extra
header). -/
theorem buffered_relay_allowlist_witness :
    ("content-type", "application/json") ∈
      (HttpResponse.mk 201
        (safe_headers [("content-type", "application/json"), ("server", "llamacpp")])
        [123]).headers :=
  (buffered_relay_allowlist
      { status := 201,
        headers := [("content-type", "application/json"), ("server", "llamacpp")],
        body := [123] }
      { status := 201,
        headers := safe_headers [("content-type", "application/json"), ("server", "llamacpp")],
        body := [123] }
      rfl).2.2.1 "application/json" rfl (by decide)

/-- Claim C9: the worker is spawned with its `--host` flag set to the
literal `127.0.0.1`, placed in the fixed arguments before any
user-supplied extras and independent of the `UPSTREAM_HOST` setting,
while the proxy's target URL is built from `UPSTREAM_HOST` — so whenever
`UPSTREAM_HOST` differs from `127.0.0.1`, the proxy targets a host other
than the one the worker was bound to. -/
theorem worker_host_fixed_loopback (env : SpawnEnv) (bin mp : String)
    (pid : Nat) (path : String)
    (hbin : env.llama_server_bin = some bin) (hmp : mp ≠ "") :
    (spawn_llama_server none env (some mp) pid =
       (some { pid := pid, alive := true },
        SpawnOutcome.spawned
          ([bin, "--host", "127.0.0.1", "--port", toString env.upstream_port,
            "--model", mp] ++ env.llama_cpp_args))) ∧
    (∀ h : String,
       spawn_llama_server none { env with upstream_host := h } (some mp) pid =
         spawn_llama_server none env (some mp) pid) ∧
    upstream_url env.upstream_host env.upstream_port path =
      "http://" ++ env.upstream_host ++ ":" ++ toString env.upstream_port ++ path ∧
    (env.upstream_host ≠ "127.0.0.1" →
       ∀ cmd : List String,
         spawn_llama_server none env (some mp) pid =
           (some { pid := pid, alive := true }, SpawnOutcome.spawned cmd) →
         cmd[2]? = some "127.0.0.1" ∧ cmd[2]? ≠ some env.upstream_host) := by
  obtain ⟨b, args, port, host⟩ := env
  dsimp only at hbin ⊢
  subst hbin
  have hspawn : spawn_llama_server none ⟨some bin, args, port, host⟩ (some mp) pid =
      (some { pid := pid, alive := true },
       SpawnOutcome.spawned
         ([bin, "--host", "127.0.0.1", "--port", toString port, "--model", mp]
            ++ args)) := by
    simp [spawn_llama_server, handleAlive, hmp]
  refine ⟨hspawn, fun h => rfl, rfl, ?_⟩
  intro hne cmd hcmd
  rw [hspawn] at hcmd
  have hc : SpawnOutcome.spawned
      ([bin, "--host", "127.0.0.1", "--port", toString port, "--model", mp] ++ args) =
      SpawnOutcome.spawned cmd := congrArg Prod.snd hcmd
  injection hc with hcmd2
  subst hcmd2
  refine ⟨rfl, fun hcontra => hne ?_⟩
  simpa using hcontra.symm

/-- Witness for C9: with `UPSTREAM_HOST=0.0.0.0`, the spawn command still
binds the worker to `127.0.0.1` while the proxy URL targets `0.0.0.0`. -/
theorem worker_host_fixed_loopback_witness :
    spawn_llama_server none
      { llama_server_bin := some "llama-server", llama_cpp_args := ["--ctx-size", "4096"],
        upstream_port := 8081, upstream_host := "0.0.0.0" }
      (some "/opt/ml/model/model.gguf") 3 =
    (some { pid := 3, alive := true },
     SpawnOutcome.spawned
       (["llama-server", "--host", "127.0.0.1", "--port", "8081",
         "--model", "/opt/ml/model/model.gguf"] ++ ["--ctx-size", "4096"])) :=
  (worker_host_fixed_loopback
      { llama_server_bin := some "llama-server", llama_cpp_args := ["--ctx-size", "4096"],
        upstream_port := 8081, upstream_host := "0.0.0.0" }
      "llama-server" "/opt/ml/model/model.gguf" 3 "/v1/completions"
      rfl (by decide)).1

/-- Claim C10: on the passthrough endpoint, a mutating-method body that is
valid JSON but not a JSON object is handled exactly like an unparseable
body: no field validation is attempted, the request streams if the
`Accept` header starts with `text/event-stream`, and is otherwise
rejected with 400 "Invalid JSON body". -/
theorem passthrough_nonobject_like_unparseable (m : Method) (fp accept : String)
    (j : Json) (hm : m ≠ Method.GET) (hobj : j.isObj = false) :
    openai_passthrough m fp (some j) accept = openai_passthrough m fp none accept ∧
    openai_passthrough m fp (some j) accept =
      (if accept.startsWith "text/event-stream" then
         PassResult.proxied ("/v1/" ++ fp) true
       else PassResult.badRequest "Invalid JSON body") := by
  cases m with
  | GET => exact absurd rfl hm
  | POST =>
      cases j with
      | obj fields => simp [Json.isObj] at hobj
      | null => exact ⟨rfl, rfl⟩
      | bool b => exact ⟨rfl, rfl⟩
      | num n => exact ⟨rfl, rfl⟩
      | str s => exact ⟨rfl, rfl⟩
      | arr l => exact ⟨rfl, rfl⟩
  | PUT =>
      cases j with
      | obj fields => simp [Json.isObj] at hobj
      | null => exact ⟨rfl, rfl⟩
      | bool b => exact ⟨rfl, rfl⟩
      | num n => exact ⟨rfl, rfl⟩
      | str s => exact ⟨rfl, rfl⟩
      | arr l => exact ⟨rfl, rfl⟩
  | PATCH =>
      cases j with
      | obj fields => simp [Json.isObj] at hobj
      | null => exact ⟨rfl, rfl⟩
      | bool b => exact ⟨rfl, rfl⟩
      | num n => exact ⟨rfl, rfl⟩
      | str s => exact ⟨rfl, rfl⟩
      | arr l => exact ⟨rfl, rfl⟩

/-- Witness for C10: a JSON-array body on `POST /v1/models` behaves like
an unparseable body and yields the same 400 with a non-stream `Accept`. -/
theorem passthrough_nonobject_like_unparseable_witness :
    openai_passthrough Method.POST "models" (some (Json.arr [Json.num 1])) "application/json"
      = openai_passthrough Method.POST "models" none "application/json" :=
  (passthrough_nonobject_like_unparseable Method.POST "models" "application/json"
      (Json.arr [Json.num 1]) (by decide) rfl).1

end SMProxy
